import Mathlib

/-!
Verification of the SEPE data-cleaner specification against a shallow
embedding of `src/dagster/municipality_analytics/utils/sepe_data_cleaner.py`
(class `SepeDataCleaner`).

Modelling conventions:
* A spreadsheet cell is `Cell`: missing (`na`, pandas NaN), a string, or a
  number.  Numbers are modelled as integers (`Int`); the real files carry
  integer counts, and `str(n)` is modelled as the decimal representation.
* A raw sheet (`pd.read_excel(..., header=None)`) is a `Grid`, a list of
  rows.  pandas pads ragged rows with NaN up to the widest row; `readGrid`
  performs that padding and `numCols` is the resulting column count
  (`len(df.columns)`, which row filtering never changes).
* A named dataframe is a `Frame` (column names plus rectangular rows).
* `pd.to_numeric(s, errors="coerce")` on a string is `parseNumOpt`
  (whitespace-tolerant integer parse, `none` for NaN).
* Python exceptions are `Except String`; the logger and the error-log file
  are modelled together as a `List LogEvent`; the mutable
  `self._format_cache` dict is threaded explicitly as a `Cache` value.
-/

namespace Sepe

/-- One spreadsheet cell: NaN, a string, or an (integer) number. -/
inductive Cell where
  | na : Cell
  | str : String → Cell
  | int : Int → Cell
deriving DecidableEq, Repr

/-- Python `str(x)` / pandas `.astype(str)` on a cell (NaN prints as "nan"). -/
def cellToStr : Cell → String
  | Cell.na => "nan"
  | Cell.str s => s
  | Cell.int n => toString n

/-! Kernel-reducible (structural) counterparts of the byte-position-based
string functions of the standard library, so that concrete runs of the model
can be checked by `decide`. -/

/-- `str.upper()` (ASCII case folding, as used by the source's token
comparisons). -/
def strUpper (s : String) : String := ⟨s.toList.map Char.toUpper⟩

def isSpaceChar (c : Char) : Bool :=
  c == ' ' || c == '\t' || c == '\n' || c == '\r'

/-- `str.strip()`. -/
def strTrim (s : String) : String :=
  ⟨((s.toList.dropWhile isSpaceChar).reverse.dropWhile isSpaceChar).reverse⟩

def splitOnCharList (sep : Char) : List Char → List (List Char)
  | [] => [[]]
  | c :: rest =>
    let r := splitOnCharList sep rest
    if c == sep then [] :: r
    else (c :: r.headD []) :: r.tail

/-- `str.split(sep)` for a one-character separator. -/
def splitOnChar (sep : Char) (s : String) : List String :=
  (splitOnCharList sep s.toList).map (fun l => ⟨l⟩)

def strReplaceAux (pat rep : List Char) : Nat → List Char → List Char
  | 0, l => l
  | _, [] => []
  | fuel + 1, c :: rest =>
    if pat.isPrefixOf (c :: rest) then
      rep ++ strReplaceAux pat rep fuel ((c :: rest).drop pat.length)
    else c :: strReplaceAux pat rep fuel rest

/-- `str.replace(pat, rep)`: left-to-right, non-overlapping. -/
def strReplace (s pat rep : String) : String :=
  if pat.toList.isEmpty then s
  else ⟨strReplaceAux pat.toList rep.toList s.toList.length s.toList⟩

/-- `str.startswith(pat)`. -/
def strStartsWith (s pat : String) : Bool := pat.toList.isPrefixOf s.toList

/-- `pd.to_numeric(s, errors="coerce")` on a string value: optional-signed
integer literal, tolerating surrounding whitespace; `none` models NaN. -/
def parseNumOpt (s : String) : Option Int :=
  let t := strTrim s
  match t.toList with
  | [] => none
  | c :: cs =>
    let digits := if c = '-' || c = '+' then cs else c :: cs
    let sign : Int := if c = '-' then -1 else 1
    if digits ≠ [] ∧ digits.all Char.isDigit then
      some (sign * (digits.foldl (fun acc d => acc * 10 + (d.toNat - 48)) 0 : Nat))
    else none

/-- `pd.to_numeric` applied to a raw cell (numeric passthrough, NaN stays NaN). -/
def toNumericCell : Cell → Option Int
  | Cell.na => none
  | Cell.int n => some n
  | Cell.str s => parseNumOpt s

/-- Remove every character of `cs` from `s` (regex `str.replace(r"[...]", "")`). -/
def stripChars (cs : List Char) (s : String) : String :=
  ⟨s.toList.filter (fun c => !(cs.contains c))⟩

/-- Substring test (Python `pat in s`, `re.search` of a literal pattern). -/
def containsSub (s pat : String) : Bool :=
  s.toList.tails.any (fun t => pat.toList.isPrefixOf t)

/-- Case-insensitive substring test (ASCII case folding, matching the
`re.IGNORECASE` / `case=False` uses in the source, whose keywords are ASCII). -/
def containsCI (s pat : String) : Bool :=
  containsSub (strUpper s) (strUpper pat)

/-- Index of the first element satisfying `p` (pandas: first surviving label
after boolean-mask filtering of a RangeIndex-ed frame). -/
def findFirstIdx (p : α → Bool) : List α → Option Nat
  | [] => none
  | a :: l => if p a then some 0 else (findFirstIdx p l).map (· + 1)

/-- A raw, headerless sheet. -/
abbrev Grid := List (List Cell)

/-- `len(df.columns)` of a headerless read: the widest row. -/
def numCols (df : Grid) : Nat := df.foldr (fun r m => max r.length m) 0

/-- Pad a row with NaN cells up to width `w` (pandas rectangularization). -/
def padTo (w : Nat) (r : List Cell) : List Cell :=
  r ++ List.replicate (w - r.length) Cell.na

/-- The rectangular grid pandas actually holds after reading the sheet. -/
def readGrid (df : Grid) : Grid := df.map (padTo (numCols df))

/-! ## Format classifier and structural locator
(`get_format_by_year`, `detect_format_and_data_start`, lines 175-231) -/

inductive FormatType where
  | OLD : FormatType
  | NEW : FormatType
deriving DecidableEq, Repr

/-- `get_format_by_year`: `'OLD' if year <= 2012 else 'NEW'`. -/
def get_format_by_year (year : Int) : FormatType :=
  if year ≤ 2012 then FormatType.OLD else FormatType.NEW

/-- The triple `(format_type, data_start_row, has_codes)`. -/
structure DetectResult where
  format : FormatType
  dataStart : Option Nat
  hasCodes : Bool
deriving DecidableEq, Repr

/-- The cache key `f"{year}_{format_type}_{province}"`. -/
abbrev CacheKey := Int × FormatType × String

/-- The instance dict `self._format_cache`, threaded explicitly. -/
abbrev Cache := List (CacheKey × DetectResult)

def cacheFind (k : CacheKey) : Cache → Option DetectResult
  | [] => none
  | (k', r) :: rest => if k' = k then some r else cacheFind k rest

/-- The exact-match exclusion list of the OLD-format locator
(`~...isin(['TOTAL', 'HOMBRES', 'MUJERES', 'MUNICIPIOS'])`). -/
def excludedTokens : List String := ["TOTAL", "HOMBRES", "MUJERES", "MUNICIPIOS"]

/-- OLD-format candidate row: second column non-NaN, its string form longer
than 3, containing an ASCII letter (`[a-zA-Z]`), and not one of the four
excluded tokens (after `.upper()`). -/
def oldRowCandidate (r : List Cell) : Bool :=
  let c := r.getD 1 Cell.na
  !(c == Cell.na) &&
    decide (3 < (cellToStr c).length) &&
    (cellToStr c).toList.any Char.isAlpha &&
    !(excludedTokens.contains (strUpper (cellToStr c)))

/-- NEW-format candidate row: first column coerces to a numeric value
exceeding 1000. -/
def newRowCandidate (r : List Cell) : Bool :=
  match toNumericCell (r.getD 0 Cell.na) with
  | some v => decide (1000 < v)
  | none => false

/-- The uncached body of `detect_format_and_data_start` (both branches limit
the search to `df.head(50)`). -/
def detectCore (df : Grid) (year : Int) : DetectResult :=
  if get_format_by_year year = FormatType.OLD then
    if 1 < numCols df then
      ⟨FormatType.OLD, findFirstIdx oldRowCandidate (df.take 50), false⟩
    else
      ⟨FormatType.OLD, none, false⟩
  else
    if 0 < numCols df then
      ⟨FormatType.NEW, findFirstIdx newRowCandidate (df.take 50), true⟩
    else
      ⟨FormatType.NEW, none, true⟩

/-- `detect_format_and_data_start` with its memoization: the cache key is
`(year, format, province)` — the grid itself is not part of the key. -/
def detect_format_and_data_start (df : Grid) (province : String) (year : Int)
    (cache : Cache) : DetectResult × Cache :=
  let key : CacheKey := (year, get_format_by_year year, province)
  match cacheFind key cache with
  | some r => (r, cache)
  | none =>
    let r := detectCore df year
    (r, (key, r) :: cache)

/-- Well-formedness of a reachable cache: every stored result's format tag
equals the format component of its key (true of everything
`detect_format_and_data_start` ever stores). -/
def CacheWF (c : Cache) : Prop :=
  ∀ k r, (k, r) ∈ c → r.format = k.2.1

/-! ## Named dataframes -/

/-- A named pandas dataframe: column names plus rectangular rows. -/
structure Frame where
  names : List String
  rows : List (List Cell)
deriving DecidableEq, Repr

/-- `df.empty`: any axis of length 0. -/
def Frame.isEmpty (f : Frame) : Bool := f.rows.isEmpty || f.names.isEmpty

/-- `df[name] = constant`: appends a constant column. -/
def Frame.appendCol (f : Frame) (n : String) (c : Cell) : Frame :=
  { names := f.names ++ [n], rows := f.rows.map (fun r => r ++ [c]) }

/-- `df[selection]`: column projection by name; a missing label raises
(KeyError).  Like pandas, a duplicate label resolves to its first position. -/
def Frame.projectCols (f : Frame) (sel : List String) : Except String Frame :=
  if sel.all (fun n => f.names.contains n) then
    Except.ok
      { names := sel,
        rows := f.rows.map (fun r =>
          sel.map (fun n => r.getD (f.names.findIdx (fun m => m == n)) Cell.na)) }
  else Except.error "KeyError: column not found"

/-- `df[name]` as a list of cells (first matching label). -/
def colByName (f : Frame) (n : String) : List Cell :=
  f.rows.map (fun r => r.getD (f.names.findIdx (fun m => m == n)) Cell.na)

/-! ## Row extractors
(`parse_unemployment_sheet` lines 233-407, `parse_contracts_sheet`
lines 409-558).  The two functions are textually parallel in the source; the
shared shape is factored into `parseNew`/`parseOld`, parameterized by exactly
what differs between them: the column-name lists, the `data_type` tag and the
numeric-coercion regex. -/

/-- The modern 14-column unemployment schema (`unemployment_columns`,
lines 254-269; also `final_columns`, lines 355-370, which lists the same
names). -/
def unemployment_columns_new : List String :=
  ["municipality_code", "municipality_name", "total_unemployment",
   "men_under_25", "men_25_44", "men_45_plus",
   "women_under_25", "women_25_44", "women_45_plus",
   "agriculture_sector", "industry_sector", "construction_sector",
   "services_sector", "no_previous_employment"]

/-- `unemployment_columns_old` as selected by the year (17 columns for
`year <= 2007`, lines 295-313; 14 columns otherwise, lines 316-331). -/
def unemployment_columns_old (year : Int) : List String :=
  if year ≤ 2007 then
    ["temp_col_0", "municipality_name", "total_unemployment",
     "men_under_25", "men_25_44", "men_45_plus",
     "women_under_25", "women_25_44", "women_45_plus",
     "agriculture_sector", "industry_sector", "construction_sector",
     "services_sector", "no_previous_employment",
     "extra_col_1", "extra_col_2", "extra_col_3"]
  else
    ["temp_col_0", "municipality_name", "total_unemployment",
     "men_under_25", "men_25_44", "men_45_plus",
     "women_under_25", "women_25_44", "women_45_plus",
     "agriculture_sector", "industry_sector", "construction_sector",
     "services_sector", "no_previous_employment"]

/-- The modern 13-column contracts schema (`contracts_columns`,
lines 430-444; identical to `final_columns`, lines 507-521). -/
def contracts_columns_new : List String :=
  ["municipality_code", "municipality_name", "total_contracts",
   "men_indefinite_initial", "men_temporary_initial",
   "men_indefinite_conversion", "women_indefinite_initial",
   "women_temporary_initial", "women_indefinite_conversion",
   "agriculture_sector", "industry_sector", "construction_sector",
   "services_sector"]

/-- `contracts_columns_old` (lines 469-483): one 13-column list for both old
sub-eras. -/
def contracts_columns_old : List String :=
  ["temp_col_0", "municipality_name", "total_contracts",
   "men_indefinite_initial", "men_temporary_initial",
   "men_indefinite_conversion", "women_indefinite_initial",
   "women_temporary_initial", "women_indefinite_conversion",
   "agriculture_sector", "industry_sector", "construction_sector",
   "services_sector"]

/-- The pre-compiled boilerplate regex `self.header_keywords_pattern`
(lines 40-45), an IGNORECASE alternation of literal substrings.  The `√ö`/`√ë`
sequences reproduce the source file's literal bytes. -/
def headerKeywords : List String :=
  ["PARO REGISTRADO", "SEG√öN SEXO", "EDAD Y SECTOR", "MUNICIPIOS", "TOTAL",
   "HOMBRES", "MUJERES", "SECTORES", "AGRI-", "INDUS-", "CONS-",
   "CONTRATOS DE TRABAJO", "REGISTRADOS SEG√öN", "TIPO DE CONTRATO",
   "INIC. INDEF.", "INIC. TEMPORAL", "CONVERT."]

def headerKeywordMatch (s : String) : Bool :=
  headerKeywords.any (fun k => containsCI s k)

/-- Structured data-quality issue (the source formats these as strings in
`validate_parsed_data`; the constructors carry the same data). -/
inductive Issue where
  | missingCodes (n : Nat)
  | placeholderCodes (n : Nat)
  | missingNames (n : Nat)
  | negativeValues (col : String) (n : Nat)
  | highUnemployment (n : Nat)
  | highContracts (n : Nat)
deriving DecidableEq, Repr

/-- Structured log/warning events (source: `self.logger.warning` calls and
`log_error` lines, modelled as one stream). -/
inductive LogEvent where
  | noDataWarning (dataType province : String)
  | newColumnCountWarning (dataType province : String)
  | oldColumnCountWarning (dataType province : String)
  | engineFallback (file sheet : String)
  | sheetReadFailed (file sheet : String)
  | dataParseError (file sheet : String)
  | emptyData (file sheet : String)
  | dataQualityIssue (file sheet : String) (issues : List Issue)
  | filenameParseError (file : String)
  | fileProcessingError (file : String)
deriving DecidableEq, Repr

/-- A parser's successful result: the extracted frame plus the warnings the
parser itself logged. -/
structure ParseOut where
  frame : Frame
  warnings : List LogEvent
deriving DecidableEq, Repr

/-- The numeric-coercion of `parse_unemployment_sheet` (lines 395-398):
`pd.to_numeric(cell.astype(str).str.replace(r"[<>]", ""), errors="coerce").fillna(0)`.
Note: it does NOT strip spaces. -/
def coerceUnemployment (s : String) : Int :=
  (parseNumOpt (stripChars ['<', '>'] s)).getD 0

/-- The numeric-coercion of `parse_contracts_sheet` (lines 546-549):
`pd.to_numeric(cell.astype(str).str.replace(r"[ <>]", "").replace("", "0"), errors="coerce").fillna(0)`. -/
def coerceContracts (s : String) : Int :=
  let t := stripChars [' ', '<', '>'] s
  let t := if t = "" then "0" else t
  (parseNumOpt t).getD 0

/-- Modelled from the spec: the spec's description of the coercion shared by
both extractors — "stripping noise characters (`<`,`>`, stray spaces),
treating un-coercible/empty as zero".  Used only to compare the spec's words
against the two source coercions above. -/
def specCoerce (s : String) : Int :=
  (parseNumOpt (stripChars [' ', '<', '>'] s)).getD 0

/-- Columns excluded from numeric coercion (lines 387-388 / 538-539). -/
def metaExcludedCols : List String :=
  ["municipality_name", "province", "year", "month", "data_type"]

/-- One row of the vectorized coercion loop: every column except the excluded
metadata columns and `municipality_code` is stringified, noise-stripped and
numerically coerced with un-coercible mapped to 0. -/
def coerceRow (coerceFn : String → Int) (names : List String) (r : List Cell) :
    List Cell :=
  (names.zip r).map (fun p =>
    if metaExcludedCols.contains p.1 || p.1 == "municipality_code" then p.2
    else Cell.int (coerceFn (cellToStr p.2)))

def coerceFrame (coerceFn : String → Int) (f : Frame) : Frame :=
  ⟨f.names, f.rows.map (coerceRow coerceFn f.names)⟩

/-- `data_df["municipality_name"].astype(str).str.strip()` on one row. -/
def stripNameRow (names : List String) (r : List Cell) : List Cell :=
  (names.zip r).map (fun p =>
    if p.1 == "municipality_name" then Cell.str (strTrim (cellToStr p.2))
    else p.2)

def stripNameCol (f : Frame) : Frame :=
  ⟨f.names, f.rows.map (stripNameRow f.names)⟩

/-- `int(x)` / `.astype(int)` on a single cell; NaN and non-numeric strings
raise. -/
def cellToIntE : Cell → Except String Int
  | Cell.int n => Except.ok n
  | Cell.str s =>
    match parseNumOpt s with
    | some n => Except.ok n
    | none => Except.error "invalid literal for int"
  | Cell.na => Except.error "cannot convert NaN to int"

/-- `df[name] = df[name].astype(int)`. -/
def astypeIntCol (n : String) (f : Frame) : Except String Frame :=
  if f.names.contains n then
    let i := f.names.findIdx (fun m => m == n)
    match f.rows.mapM (fun r =>
        (cellToIntE (r.getD i Cell.na)).map (fun v => r.set i (Cell.int v))) with
    | Except.ok rs => Except.ok ⟨f.names, rs⟩
    | Except.error e => Except.error e
  else Except.error "KeyError: column not found"

/-- Metadata columns appended after extraction (lines 381-384 / 532-535). -/
def appendMeta (f : Frame) (province : String) (year month : Int)
    (dataType : String) : Frame :=
  (((f.appendCol "province" (Cell.str province)).appendCol
      "year" (Cell.int year)).appendCol
      "month" (Cell.int month)).appendCol "data_type" (Cell.str dataType)

/-- The NEW-format branch of either extractor, given the post-slice rows and
the original column count `W`: drop NaN-code rows, then either truncate to
the modern schema or — when the sheet has fewer columns — return an empty
frame with a warning; then metadata, coercion, `astype(int)` on the code and
name stripping. -/
def parseNew (colsNew : List String) (dataType : String)
    (coerceFn : String → Int) (province : String) (year month : Int)
    (W : Nat) (rows : Grid) : Except String ParseOut :=
  let rows1 := rows.filter (fun r => !(r.getD 0 Cell.na == Cell.na))
  if colsNew.length ≤ W then
    let f0 : Frame := ⟨colsNew, rows1.map (fun r => r.take colsNew.length)⟩
    let f1 := appendMeta f0 province year month dataType
    let f2 := coerceFrame coerceFn f1
    match astypeIntCol "municipality_code" f2 with
    | Except.error e => Except.error e
    | Except.ok f3 => Except.ok ⟨stripNameCol f3, []⟩
  else
    Except.ok ⟨⟨[], []⟩, [LogEvent.newColumnCountWarning dataType province]⟩

/-- The OLD-format branch of either extractor: drop NaN-name and short-name
rows, filter boilerplate (header-keyword regex OR rows containing the
province name), name the columns (warning-and-keep-available when the sheet
is narrower than the era schema, truncate otherwise), pad the placeholder
`municipality_code = 0` column, reorder to the modern order keeping only
columns present on both sides, then metadata, coercion and name stripping. -/
def parseOld (colsOld finalCols : List String) (dataType : String)
    (coerceFn : String → Int) (province : String) (year month : Int)
    (W : Nat) (rows : Grid) : Except String ParseOut :=
  let rows1 := rows.filter (fun r => !(r.getD 1 Cell.na == Cell.na))
  let rows2 := rows1.filter (fun r => decide (3 < (cellToStr (r.getD 1 Cell.na)).length))
  let rows3 :=
    if 0 < rows2.length ∧ 1 < W then
      rows2.filter (fun r =>
        !(headerKeywordMatch (cellToStr (r.getD 1 Cell.na)) ||
          containsCI (cellToStr (r.getD 1 Cell.na)) province))
    else rows2
  let mismatch := W < colsOld.length
  let named : Frame :=
    if mismatch then ⟨colsOld.take W, rows3⟩
    else ⟨colsOld, rows3.map (fun r => r.take colsOld.length)⟩
  let named2 := named.appendCol "municipality_code" (Cell.int 0)
  let avail := "municipality_code" :: "municipality_name" ::
    (colsOld.drop 2).filter
      (fun c => named2.names.contains c && finalCols.contains c)
  match named2.projectCols avail with
  | Except.error e => Except.error e
  | Except.ok proj =>
    let f1 := appendMeta proj province year month dataType
    let f2 := coerceFrame coerceFn f1
    Except.ok ⟨stripNameCol f2,
      if mismatch then [LogEvent.oldColumnCountWarning dataType province] else []⟩

/-- Shared shape of the two sheet parsers: locate the data start (through the
memoizing locator), slice the rows, and dispatch on the (possibly cached)
format tag. -/
def parseSheet (colsNew : List String) (colsOldOf : Int → List String)
    (finalCols : List String) (dataType : String) (coerceFn : String → Int)
    (df : Grid) (province : String) (year month : Int) (cache : Cache) :
    Except String ParseOut × Cache :=
  let dc := detect_format_and_data_start df province year cache
  match dc.1.dataStart with
  | none => (Except.ok ⟨⟨[], []⟩, [LogEvent.noDataWarning dataType province]⟩, dc.2)
  | some start =>
    let W := numCols df
    let rows := (readGrid df).drop start
    match dc.1.format with
    | FormatType.NEW =>
      (parseNew colsNew dataType coerceFn province year month W rows, dc.2)
    | FormatType.OLD =>
      (parseOld (colsOldOf year) finalCols dataType coerceFn province year month W rows, dc.2)

/-- `parse_unemployment_sheet` (lines 233-407). -/
def parse_unemployment_sheet (df : Grid) (province : String) (year month : Int)
    (cache : Cache) : Except String ParseOut × Cache :=
  parseSheet unemployment_columns_new unemployment_columns_old
    unemployment_columns_new "unemployment" coerceUnemployment
    df province year month cache

/-- `parse_contracts_sheet` (lines 409-558). -/
def parse_contracts_sheet (df : Grid) (province : String) (year month : Int)
    (cache : Cache) : Except String ParseOut × Cache :=
  parseSheet contracts_columns_new (fun _ => contracts_columns_old)
    contracts_columns_new "contracts" coerceContracts
    df province year month cache

/-! ## Sheet validator (`validate_parsed_data`, lines 120-173)
The validator only reads the frame and returns a list of issues — in this
embedding that is visible in its type (`Frame → ... → List Issue`): it has no
way to mutate its input or to reject it. -/

def countNa (cs : List Cell) : Nat :=
  (cs.filter (fun c => c == Cell.na)).length

def countZero (cs : List Cell) : Nat :=
  (cs.filter (fun c => c == Cell.int 0)).length

def countNeg (cs : List Cell) : Nat :=
  (cs.filter (fun c => match c with | Cell.int n => decide (n < 0) | _ => false)).length

def countHigh (k : Int) (cs : List Cell) : Nat :=
  (cs.filter (fun c => match c with | Cell.int n => decide (k < n) | _ => false)).length

/-- Content-based surrogate for `select_dtypes(include=["int64","float64"])`:
a column whose cells are all numeric-or-NaN.  (In the extractor's output the
coerced measure columns are numeric, the name/province/data_type columns hold
strings.) -/
def isNumericColumn (cs : List Cell) : Bool :=
  cs.all (fun c => match c with | Cell.str _ => false | _ => true)

/-- `int(file_name.split('_')[0])`, with failure as `none`. -/
def fileYearOf (file_name : String) : Option Int :=
  parseNumOpt ((splitOnChar '_' file_name).headD "")

/-- `validate_parsed_data` (sheet name omitted; it is only interpolated into
the log line). -/
def validate_parsed_data (f : Frame) (data_type : String) (file_name : String) :
    List Issue :=
  let is_old_format :=
    match fileYearOf file_name with
    | some y => decide (y ≤ 2012)
    | none => false
  let codeIssues :=
    if f.names.contains "municipality_code" then
      (let missing := countNa (colByName f "municipality_code")
       if 0 < missing then [Issue.missingCodes missing] else []) ++
      (if !is_old_format then
         let ph := countZero (colByName f "municipality_code")
         if 0 < ph then [Issue.placeholderCodes ph] else []
       else [])
    else []
  let nameIssues :=
    if f.names.contains "municipality_name" then
      let missing := countNa (colByName f "municipality_name")
      if 0 < missing then [Issue.missingNames missing] else []
    else []
  let negIssues :=
    (f.names.filter (fun n =>
        isNumericColumn (colByName f n) &&
        !(["municipality_code", "year", "month"].contains n))).filterMap
      (fun n =>
        let neg := countNeg (colByName f n)
        if 0 < neg then some (Issue.negativeValues n neg) else none)
  let highIssues :=
    if data_type == "unemployment" then
      if f.names.contains "total_unemployment" then
        let h := countHigh 50000 (colByName f "total_unemployment")
        if 0 < h then [Issue.highUnemployment h] else []
      else []
    else if data_type == "contracts" then
      if f.names.contains "total_contracts" then
        let h := countHigh 100000 (colByName f "total_contracts")
        if 0 < h then [Issue.highContracts h] else []
      else []
    else []
  codeIssues ++ nameIssues ++ negIssues ++ highIssues

/-! ## Sheet router (`clean_sheet_name`, `normalize_province_name`) -/

/-- `self.province_mappings` (lines 31-37); the `√ë` sequences reproduce the
source file's literal bytes. -/
def province_mappings : List (String × String) :=
  [("A CORU√ëA", "CORU√ëA"),
   ("CORU√ëA A", "CORU√ëA"),
   ("STA CRUZ TENER.", "SANTA CRUZ TENERIFE"),
   ("STA. CRUZ TENER.", "SANTA CRUZ TENERIFE"),
   ("CONTRTOS LUGO", "CONTRATOS LUGO")]

/-- `clean_sheet_name` (lines 94-111): returns
`(data_type, province_name, clean_province)`. -/
def clean_sheet_name (sheetName : String) : String × String × String :=
  let s0 := strTrim sheetName
  let s := province_mappings.foldl
    (fun acc p => if containsSub acc p.1 then strReplace acc p.1 p.2 else acc) s0
  if strStartsWith s "PARO " then
    ("unemployment", s.drop 5, strTrim (s.drop 5))
  else if strStartsWith s "CONTRATOS " then
    ("contracts", s.drop 10, strTrim (s.drop 10))
  else ("unknown", s, s)

/-- `normalize_province_name` (lines 113-118). -/
def normalize_province_name (province : String) : String :=
  strUpper (strReplace (strReplace (strReplace province " " "_") "." "") "/" "_")

/-! ## File processor
(`process_sheet_batch` lines 577-651, `process_file` lines 653-739) -/

/-- The aggregate counters `self.processing_stats`. -/
structure Stats where
  files_processed : Nat
  files_failed : Nat
  sheets_processed : Nat
  sheets_failed : Nat
  engine_fallbacks : Nat
  data_quality_issues : Nat
  old_format_files : Nat
  new_format_files : Nat
deriving DecidableEq, Repr

/-- One sheet of a workbook: its name and the outcomes of reading it with
the fast engine (calamine) and with the fallback engine (openpyxl/xlrd). -/
structure Sheet where
  name : String
  readFast : Except String Grid
  readFallback : Except String Grid

/-- The engine-fallback read of one sheet (lines 595-616): try the fast
engine, fall back once, fail the sheet if both fail.  The `Bool` records
whether the fallback was used. -/
def readSheet (s : Sheet) : Except String (Grid × Bool) :=
  match s.readFast with
  | Except.ok g => Except.ok (g, false)
  | Except.error _ =>
    match s.readFallback with
    | Except.ok g => Except.ok (g, true)
    | Except.error e => Except.error e

/-- `['PORTADA', 'Indice', 'NO CONSTA MUNIC.']`. -/
def specialSheets : List String := ["PORTADA", "Indice", "NO CONSTA MUNIC."]

/-- Python dict assignment `results[data_type][province] = parsed_df`:
insertion-ordered overwrite. -/
def upsert (l : List (String × Frame)) (k : String) (v : Frame) :
    List (String × Frame) :=
  if l.any (fun p => p.1 == k) then
    l.map (fun p => if p.1 == k then (k, v) else p)
  else l ++ [(k, v)]

/-- State threaded through the per-sheet loop of `process_sheet_batch`:
the accumulated per-category results plus the instance-level stats, format
cache and log. -/
structure BatchSt where
  unemployment : List (String × Frame)
  contracts : List (String × Frame)
  stats : Stats
  cache : Cache
  log : List LogEvent

/-- The category dispatch of the batch loop (lines 618-624): which parser a
routed sheet goes to. -/
def parseByType (dataType : String) (df : Grid) (province : String)
    (year month : Int) (c : Cache) : Except String ParseOut × Cache :=
  if dataType == "unemployment" then
    parse_unemployment_sheet df province year month c
  else
    parse_contracts_sheet df province year month c

/-- The tail of the batch loop body (lines 618-639), given the parser's
outcome: a parsing exception is logged (`DATA_PARSE_ERROR`) and counted; an
empty frame is logged (`EMPTY_DATA`) and counted; otherwise the frame is
validated and accumulated under its normalized province. -/
def stepParsed (fileName sheetName dataType province : String)
    (st : BatchSt) : Except String ParseOut × Cache → BatchSt
  | (Except.error _, c') =>
    { st with
      cache := c',
      stats := { st.stats with sheets_failed := st.stats.sheets_failed + 1 },
      log := st.log ++ [LogEvent.dataParseError fileName sheetName] }
  | (Except.ok out, c') =>
    let st := { st with cache := c' }
    if out.frame.isEmpty then
      { st with
        stats := { st.stats with
          data_quality_issues := st.stats.data_quality_issues + 1 },
        log := st.log ++ [LogEvent.emptyData fileName sheetName] }
    else
      let issues := validate_parsed_data out.frame dataType fileName
      let st :=
        if issues.isEmpty then st
        else
          { st with
            stats := { st.stats with
              data_quality_issues := st.stats.data_quality_issues + 1 },
            log := st.log ++
              [LogEvent.dataQualityIssue fileName sheetName issues] }
      let np := normalize_province_name province
      if dataType == "unemployment" then
        { st with
          unemployment := upsert st.unemployment np out.frame,
          stats := { st.stats with
            sheets_processed := st.stats.sheets_processed + 1 } }
      else
        { st with
          contracts := upsert st.contracts np out.frame,
          stats := { st.stats with
            sheets_processed := st.stats.sheets_processed + 1 } }

/-- The read stage of the batch loop body (lines 593-616): a failed fast
read logs the fallback; if the fallback read also fails the sheet is counted
failed (`SHEET_READ_FAILED`) and skipped. -/
def stepRead (fileName : String) (year month : Int)
    (sheetName dataType province : String) (st : BatchSt) :
    Except String (Grid × Bool) → BatchSt
  | Except.error _ =>
    { st with
      stats := { st.stats with
        engine_fallbacks := st.stats.engine_fallbacks + 1,
        sheets_failed := st.stats.sheets_failed + 1 },
      log := st.log ++
        [LogEvent.engineFallback fileName sheetName,
         LogEvent.sheetReadFailed fileName sheetName] }
  | Except.ok (df, false) =>
    stepParsed fileName sheetName dataType province st
      (parseByType dataType df province year month st.cache)
  | Except.ok (df, true) =>
    let st :=
      { st with
        stats := { st.stats with
          engine_fallbacks := st.stats.engine_fallbacks + 1 },
        log := st.log ++ [LogEvent.engineFallback fileName sheetName] }
    stepParsed fileName sheetName dataType province st
      (parseByType dataType df province year month st.cache)

/-- The loop body of `process_sheet_batch` for one sheet.  Every per-sheet
failure (both read engines failing, a parsing exception, an empty parse
result) is recorded in stats/log and the function returns normally. -/
def stepSheet (fileName : String) (year month : Int) (st : BatchSt)
    (s : Sheet) : BatchSt :=
  if specialSheets.contains s.name then st
  else
    let dpp := clean_sheet_name s.name
    if dpp.1 == "unknown" then st
    else stepRead fileName year month s.name dpp.1 dpp.2.2 st (readSheet s)

/-- `process_sheet_batch`: fold the per-sheet step over a batch. -/
def processSheetBatch (fileName : String) (year month : Int) (st : BatchSt)
    (sheets : List Sheet) : BatchSt :=
  sheets.foldl (stepSheet fileName year month) st

/-- `extract_date_from_filename` (lines 81-92). -/
def extract_date_from_filename (filename : String) :
    Except String (Int × Int) :=
  let parts := splitOnChar '_' (strReplace filename ".xls" "")
  if 2 ≤ parts.length then
    match parseNumOpt (parts.getD 0 ""), parseNumOpt (parts.getD 1 "") with
    | some y, some m => Except.ok (y, m)
    | _, _ => Except.error "invalid int in filename"
  else Except.error "Invalid filename format"

/-- A workbook on disk: name, size, whether `pd.ExcelFile` succeeds (after
engine fallback), and its sheets. -/
structure WorkFile where
  name : String
  sizeMB : Nat
  readable : Bool
  sheets : List Sheet

/-- The early relevance filter of `process_file` (lines 696-698). -/
def relevantSheet (s : Sheet) : Bool :=
  !(specialSheets.contains s.name) &&
    (containsSub s.name "PARO" || containsSub s.name "CONTRATOS")

/-- Per-file result `Dict[data_type, Dict[province, DataFrame]]`. -/
structure FileResults where
  unemployment : List (String × Frame)
  contracts : List (String × Frame)
deriving DecidableEq

/-- Instance state surviving across files: stats, format cache, log. -/
structure GlobalSt where
  stats : Stats
  cache : Cache
  log : List LogEvent

/-- Format-distribution tracking of `process_file` (lines 664-668). -/
def trackFormat (g : GlobalSt) (year : Int) : GlobalSt :=
  if year ≤ 2012 then
    { g with stats := { g.stats with
        old_format_files := g.stats.old_format_files + 1 } }
  else
    { g with stats := { g.stats with
        new_format_files := g.stats.new_format_files + 1 } }

/-- `process_file`.  Paths returning an empty `FileResults`:
* unparseable filename — logged, `files_failed` incremented, and (because the
  `finally` belongs to the second `try`) `files_processed` NOT incremented;
* file over 100MB — skipped without a failure count;
* unreadable workbook — logged, failed;
* no relevant sheets — `batch_size = min(10, 0) = 0` makes
  `range(0, 0, 0)` raise `ValueError`, caught by the outer handler as a
  file-processing error.
The per-sheet batches of ≤ 10 sheets are processed sequentially and merged
with dict-update overwrite, which is the same as one left fold over all
relevant sheets; the fold is used directly here. -/
def process_file (file : WorkFile) (g : GlobalSt) : FileResults × GlobalSt :=
  match extract_date_from_filename file.name with
  | Except.error _ =>
    (⟨[], []⟩,
     { g with
       stats := { g.stats with files_failed := g.stats.files_failed + 1 },
       log := g.log ++
         [LogEvent.filenameParseError file.name,
          LogEvent.fileProcessingError file.name] })
  | Except.ok (year, month) =>
    let g := trackFormat g year
    if 100 < file.sizeMB then
      (⟨[], []⟩,
       { g with stats := { g.stats with
           files_processed := g.stats.files_processed + 1 } })
    else if !file.readable then
      (⟨[], []⟩,
       { g with
         stats := { g.stats with
           files_failed := g.stats.files_failed + 1,
           files_processed := g.stats.files_processed + 1 },
         log := g.log ++ [LogEvent.fileProcessingError file.name] })
    else
      let rel := file.sheets.filter relevantSheet
      if rel.isEmpty then
        (⟨[], []⟩,
         { g with
           stats := { g.stats with
             files_failed := g.stats.files_failed + 1,
             files_processed := g.stats.files_processed + 1 },
           log := g.log ++ [LogEvent.fileProcessingError file.name] })
      else
        let b := processSheetBatch file.name year month
          ⟨[], [], g.stats, g.cache, g.log⟩ rel
        (⟨b.unemployment, b.contracts⟩,
         { stats := { b.stats with
             files_processed := b.stats.files_processed + 1 },
           cache := b.cache,
           log := b.log })

/-! ## Consolidation writer (`save_consolidated_data`, lines 741-764) -/

/-- The output filesystem as a path-to-contents association list. -/
abbrev FS := List (String × String)

def FS.hasPath (fs : FS) (p : String) : Bool := fs.any (fun e => e.1 == p)

def FS.write (fs : FS) (p : String) (content : String) : FS :=
  if fs.any (fun e => e.1 == p) then
    fs.map (fun e => if e.1 == p then (p, content) else e)
  else fs ++ [(p, content)]

/-- `f"{month:02d}"`. -/
def pad2 (m : Int) : String :=
  if 0 ≤ m ∧ m < 10 then "0" ++ toString m else toString m

/-- The output path `{output_dir}/{year}_{month:02d}_{data_type}.csv`. -/
def consolidatedPath (output_dir data_type : String) (year month : Int) :
    String :=
  output_dir ++ "/" ++ toString year ++ "_" ++ pad2 month ++ "_" ++
    data_type ++ ".csv"

/-- Column union in order of first appearance (`pd.concat` with
`sort=False`). -/
def unionNames (fs : List Frame) : List String :=
  fs.foldl (fun acc f => acc ++ f.names.filter (fun n => !(acc.contains n))) []

def alignRow (names : List String) (f : Frame) (r : List Cell) : List Cell :=
  names.map (fun n =>
    if f.names.contains n then
      r.getD (f.names.findIdx (fun m => m == n)) Cell.na
    else Cell.na)

/-- `pd.concat(combined_dfs, ignore_index=True)`. -/
def concatFrames (frames : List Frame) : Frame :=
  let names := unionNames frames
  ⟨names, frames.foldl (fun acc f => acc ++ f.rows.map (alignRow names f)) []⟩

def cellCsv : Cell → String
  | Cell.na => ""
  | Cell.str s => s
  | Cell.int n => toString n

/-- `df.to_csv(path, index=False)` serialization. -/
def frameToCsv (f : Frame) : String :=
  String.intercalate "," f.names ++ "\n" ++
    String.intercalate "\n"
      (f.rows.map (fun r => String.intercalate "," (r.map cellCsv))) ++ "\n"

/-- `save_consolidated_data`: returns the path written or skipped ("" when
there was nothing to write) and the updated filesystem. -/
def save_consolidated_data (force_reprocess : Bool) (output_dir : String)
    (data_type : String) (all_provinces_data : List (String × Frame))
    (year month : Int) (fs : FS) : String × FS :=
  let path := consolidatedPath output_dir data_type year month
  if fs.hasPath path && !force_reprocess then (path, fs)
  else
    let combined := (all_provinces_data.map Prod.snd).filter
      (fun df => !df.isEmpty)
    if combined.isEmpty then ("", fs)
    else (path, fs.write path (frameToCsv (concatFrames combined)))

/-! ## General lemmas -/

theorem cacheFind_mem {k : CacheKey} {c : Cache} {r : DetectResult}
    (h : cacheFind k c = some r) : (k, r) ∈ c := by
  induction c with
  | nil => simp [cacheFind] at h
  | cons e rest ih =>
    obtain ⟨k', r'⟩ := e
    rw [cacheFind] at h
    split at h
    · next heq =>
      cases h
      subst heq
      exact List.mem_cons_self _ _
    · exact List.mem_cons_of_mem _ (ih h)

theorem detectCore_format (df : Grid) (y : Int) :
    (detectCore df y).format = get_format_by_year y := by
  rw [detectCore]
  split
  · next h => split <;> simp [h]
  · next h =>
    cases hg : get_format_by_year y with
    | OLD => exact absurd hg h
    | NEW => split <;> simp

/-- Under a well-formed cache the locator's (possibly cached) format tag is
always the year's format. -/
theorem detect_format (df : Grid) (p : String) (y : Int) (c : Cache)
    (h : CacheWF c) :
    (detect_format_and_data_start df p y c).1.format = get_format_by_year y := by
  rw [detect_format_and_data_start]
  cases hf : cacheFind (y, get_format_by_year y, p) c with
  | some r =>
    simp only [hf]
    exact h _ _ (cacheFind_mem hf)
  | none =>
    simp only [hf]
    exact detectCore_format df y

theorem findFirstIdx_eq_none {α : Type} {p : α → Bool} {l : List α}
    (h : ∀ a ∈ l, p a = false) : findFirstIdx p l = none := by
  induction l with
  | nil => rfl
  | cons a l ih =>
    rw [findFirstIdx, h a (List.mem_cons_self a l)]
    simp [ih (fun x hx => h x (List.mem_cons_of_mem a hx))]

theorem length_le_numCols {r : List Cell} {df : Grid} (h : r ∈ df) :
    r.length ≤ numCols df := by
  induction df with
  | nil => cases h
  | cons a l ih =>
    rw [numCols, List.foldr_cons]
    rcases List.mem_cons.mp h with h | h
    · subst h; exact Nat.le_max_left _ _
    · exact le_trans (ih h) (Nat.le_max_right _ _)

theorem mem_readGrid_length {r : List Cell} {df : Grid}
    (h : r ∈ readGrid df) : r.length = numCols df := by
  rw [readGrid] at h
  obtain ⟨r0, hr0, rfl⟩ := List.mem_map.mp h
  rw [padTo, List.length_append, List.length_replicate]
  exact Nat.add_sub_cancel' (length_le_numCols hr0)

theorem findIdx_append_singleton {p : String → Bool} {l : List String}
    {a : String} (hl : ∀ x ∈ l, p x = false) (ha : p a = true) :
    (l ++ [a]).findIdx p = l.length := by
  induction l with
  | nil => simp [List.findIdx_cons, ha]
  | cons x l ih =>
    rw [List.cons_append, List.findIdx_cons, hl x (List.mem_cons_self x l)]
    simp [ih (fun y hy => hl y (List.mem_cons_of_mem x hy))]

theorem getD_append_len {r : List Cell} {c d : Cell} {n : Nat}
    (h : r.length = n) : (r ++ [c]).getD n d = c := by
  induction r generalizing n with
  | nil => cases h; rfl
  | cons x r ih =>
    cases h
    rw [List.cons_append, List.length_cons, List.getD_cons_succ]
    exact ih rfl

theorem projectCols_eq {f : Frame} {sel : List String} {pr : Frame}
    (h : f.projectCols sel = Except.ok pr) :
    pr.names = sel ∧
    pr.rows = f.rows.map (fun r =>
      sel.map (fun n => r.getD (f.names.findIdx (fun m => m == n)) Cell.na)) := by
  rw [Frame.projectCols] at h
  split at h
  · cases h; exact ⟨rfl, rfl⟩
  · cases h

/-- Invariant carried through the tail of the OLD-format pipeline: the first
column is the placeholder `municipality_code` column and every row starts
with the literal cell `0`. -/
def GoodFrame (f : Frame) : Prop :=
  (∃ tl, f.names = "municipality_code" :: tl) ∧
    ∀ r ∈ f.rows, ∃ t, r = Cell.int 0 :: t

theorem good_appendCol {f : Frame} {n : String} {c : Cell}
    (h : GoodFrame f) : GoodFrame (f.appendCol n c) := by
  obtain ⟨⟨tl, htl⟩, hrows⟩ := h
  constructor
  · exact ⟨tl ++ [n], by simp [Frame.appendCol, htl]⟩
  · intro r hr
    rw [Frame.appendCol] at hr
    obtain ⟨r0, hr0, rfl⟩ := List.mem_map.mp hr
    obtain ⟨t, rfl⟩ := hrows r0 hr0
    exact ⟨t ++ [c], by simp⟩

theorem good_appendMeta {f : Frame} {p : String} {y m : Int} {dt : String}
    (h : GoodFrame f) : GoodFrame (appendMeta f p y m dt) :=
  good_appendCol (good_appendCol (good_appendCol (good_appendCol h)))

theorem coerceRow_head (coerceFn : String → Int) (ns : List String)
    (t : List Cell) :
    coerceRow coerceFn ("municipality_code" :: ns) (Cell.int 0 :: t) =
      Cell.int 0 :: (ns.zip t).map (fun p =>
        if metaExcludedCols.contains p.1 || p.1 == "municipality_code" then p.2
        else Cell.int (coerceFn (cellToStr p.2))) := by
  simp [coerceRow]

theorem good_coerceFrame {f : Frame} {coerceFn : String → Int}
    (h : GoodFrame f) : GoodFrame (coerceFrame coerceFn f) := by
  obtain ⟨⟨tl, htl⟩, hrows⟩ := h
  refine ⟨⟨tl, htl⟩, ?_⟩
  intro r hr
  rw [coerceFrame] at hr
  obtain ⟨r0, hr0, rfl⟩ := List.mem_map.mp hr
  obtain ⟨t, rfl⟩ := hrows r0 hr0
  rw [htl, coerceRow_head]
  exact ⟨_, rfl⟩

theorem stripNameRow_head (ns : List String) (t : List Cell) :
    stripNameRow ("municipality_code" :: ns) (Cell.int 0 :: t) =
      Cell.int 0 :: (ns.zip t).map (fun p =>
        if p.1 == "municipality_name" then Cell.str (strTrim (cellToStr p.2))
        else p.2) := by
  simp [stripNameRow]

theorem good_stripNameCol {f : Frame} (h : GoodFrame f) :
    GoodFrame (stripNameCol f) := by
  obtain ⟨⟨tl, htl⟩, hrows⟩ := h
  refine ⟨⟨tl, htl⟩, ?_⟩
  intro r hr
  rw [stripNameCol] at hr
  obtain ⟨r0, hr0, rfl⟩ := List.mem_map.mp hr
  obtain ⟨t, rfl⟩ := hrows r0 hr0
  rw [htl, stripNameRow_head]
  exact ⟨_, rfl⟩

/-- Every successful run of the OLD-format branch yields rows whose first
cell (the `municipality_code` column) is the literal placeholder `0`,
whatever the sheet contents were. -/
theorem parseOld_code_zero {colsOld finalCols : List String}
    {dataType : String} {coerceFn : String → Int} {province : String}
    {year month : Int} {W : Nat} {rows : Grid} {out : ParseOut}
    (hW : ∀ r ∈ rows, r.length = W)
    (hcode : "municipality_code" ∉ colsOld)
    (h : parseOld colsOld finalCols dataType coerceFn province year month W rows
          = Except.ok out) :
    ∀ r ∈ out.frame.rows, r.getD 0 Cell.na = Cell.int 0 := by
  rw [parseOld] at h
  set rows1 := rows.filter (fun r => !(r.getD 1 Cell.na == Cell.na)) with hrows1
  set rows2 := rows1.filter
    (fun r => decide (3 < (cellToStr (r.getD 1 Cell.na)).length)) with hrows2
  set rows3 :=
    if 0 < rows2.length ∧ 1 < W then
      rows2.filter (fun r =>
        !(headerKeywordMatch (cellToStr (r.getD 1 Cell.na)) ||
          containsCI (cellToStr (r.getD 1 Cell.na)) province))
    else rows2 with hrows3
  have hmem3 : ∀ r ∈ rows3, r ∈ rows := by
    intro r hr
    rw [hrows3] at hr
    have h2 : r ∈ rows2 := by
      split at hr
      · exact (List.mem_filter.mp hr).1
      · exact hr
    exact (List.mem_filter.mp
      ((List.mem_filter.mp h2).1 : r ∈ rows1)).1
  set L := colsOld.length with hL
  -- the frame after column naming: its rows match its width, and it has no
  -- `municipality_code` column yet
  set named : Frame :=
    if W < L then ⟨colsOld.take W, rows3⟩
    else ⟨colsOld, rows3.map (fun r => r.take L)⟩ with hnamed
  have hrect : ∀ r ∈ named.rows, r.length = named.names.length := by
    intro r hr
    by_cases hWL : W < L
    · simp only [hnamed, if_pos hWL] at hr ⊢
      rw [List.length_take, hW r (hmem3 r hr)]
      exact (Nat.min_eq_left (Nat.le_of_lt hWL)).symm
    · simp only [hnamed, if_neg hWL] at hr ⊢
      obtain ⟨r0, hr0, rfl⟩ := List.mem_map.mp hr
      rw [List.length_take, hW r0 (hmem3 r0 hr0)]
      exact Nat.min_eq_left (Nat.le_of_not_lt hWL)
  have hnone : "municipality_code" ∉ named.names := by
    rw [hnamed]
    split
    · intro hmem
      exact hcode (List.take_subset _ _ hmem)
    · exact hcode
  -- unfold the projection step
  split at h
  · cases h
  · next proj hproj =>
    cases h
    obtain ⟨hpn, hpr⟩ := projectCols_eq hproj
    -- the projected frame satisfies the invariant
    have hgood : GoodFrame proj := by
      constructor
      · rw [hpn]; exact ⟨_, rfl⟩
      · intro r hr
        rw [hpr] at hr
        obtain ⟨r1, hr1, rfl⟩ := List.mem_map.mp hr
        simp only [Frame.appendCol] at hr1
        obtain ⟨r0, hr0, rfl⟩ := List.mem_map.mp hr1
        have hidx : ((named.appendCol "municipality_code" (Cell.int 0)).names.findIdx
            (fun m => m == "municipality_code")) = named.names.length := by
          simp only [Frame.appendCol]
          refine findIdx_append_singleton ?_ (beq_self_eq_true _)
          intro x hx
          exact beq_eq_false_iff_ne.mpr (fun hxe => hnone (hxe ▸ hx))
        rw [List.map_cons, hidx, getD_append_len (hrect r0 hr0)]
        exact ⟨_, rfl⟩
    have hfinal : GoodFrame (stripNameCol (coerceFrame coerceFn
        (appendMeta proj province year month dataType))) :=
      good_stripNameCol (good_coerceFrame (good_appendMeta hgood))
    intro r hr
    obtain ⟨t, rfl⟩ := hfinal.2 r hr
    rfl

theorem cacheFind_cons_self (k : CacheKey) (r : DetectResult) (c : Cache) :
    cacheFind k ((k, r) :: c) = some r := by
  rw [cacheFind, if_pos rfl]

/-- The frame of a parser result, empty when the parser raised. -/
def okFrameOf (x : Except String ParseOut × Cache) : Frame :=
  match x.1 with
  | Except.ok o => o.frame
  | Except.error _ => ⟨[], []⟩

/-- The warnings of a parser result. -/
def okWarningsOf (x : Except String ParseOut × Cache) : List LogEvent :=
  match x.1 with
  | Except.ok o => o.warnings
  | Except.error _ => []

theorem hasPath_write (fs : FS) (p c : String) :
    (fs.write p c).hasPath p = true := by
  rw [FS.write]
  split
  · next h =>
    rw [FS.hasPath, List.any_map]
    obtain ⟨e, he, hpe⟩ := List.any_eq_true.mp h
    refine List.any_eq_true.mpr ⟨e, he, ?_⟩
    simp [Function.comp, hpe]
  · rw [FS.hasPath, List.any_append]
    simp

/-! ## Claim theorems -/

/-- C3: `get_format_by_year` is a pure total function of the year with the
OLD/NEW boundary exactly between 2012 and 2013, and unemployment extraction
selects the 17-column schema for `year <= 2007` and the 14-column schema for
the 2008-2012 range. -/
theorem c3_format_classifier (y : Int) :
    (get_format_by_year y = FormatType.OLD ↔ y ≤ 2012) ∧
    (get_format_by_year y = FormatType.NEW ↔ 2012 < y) ∧
    (y ≤ 2007 → (unemployment_columns_old y).length = 17) ∧
    (2007 < y → y ≤ 2012 → (unemployment_columns_old y).length = 14) := by
  refine ⟨?_, ?_, ?_, ?_⟩
  · rw [get_format_by_year]
    by_cases hy : y ≤ 2012
    · rw [if_pos hy]; simp [hy]
    · rw [if_neg hy]; simp [hy]
  · rw [get_format_by_year]
    by_cases hy : y ≤ 2012
    · rw [if_pos hy]
      simp [not_lt.mpr hy]
    · rw [if_neg hy]
      simp [lt_of_not_le hy]
  · intro h
    rw [unemployment_columns_old, if_pos h]
    rfl
  · intro h _
    rw [unemployment_columns_old, if_neg (not_le.mpr h)]
    rfl

/-- C3 witness: the boundaries 2012/2013 and 2007/2008 instantiated. -/
theorem c3_format_classifier_witness :
    get_format_by_year 2012 = FormatType.OLD ∧
    get_format_by_year 2013 = FormatType.NEW ∧
    (unemployment_columns_old 2007).length = 17 ∧
    (unemployment_columns_old 2008).length = 14 :=
  ⟨(c3_format_classifier 2012).1.mpr (by decide),
   (c3_format_classifier 2013).2.1.mpr (by decide),
   (c3_format_classifier 2007).2.2.1 (by decide),
   (c3_format_classifier 2008).2.2.2 (by decide) (by decide)⟩

/-- C4 (implicit): `detect_format_and_data_start` memoizes under the key
`(year, format, province)` only and ignores the grid: a second call with ANY
grid `g2` but the same year and province returns the first call's result
(computed from `g1` when the key was fresh) and leaves the cache unchanged.
Both sheet parsers call this same locator with the (year, province) key, so
the unemployment and contracts sheets of one province/year share the cached
data-start row. -/
theorem c4_locator_memoization (g1 g2 : Grid) (p : String) (y : Int)
    (c : Cache) :
    detect_format_and_data_start g2 p y (detect_format_and_data_start g1 p y c).2
      = ((detect_format_and_data_start g1 p y c).1,
         (detect_format_and_data_start g1 p y c).2) ∧
    (cacheFind (y, get_format_by_year y, p) c = none →
      (detect_format_and_data_start g1 p y c).1 = detectCore g1 y) := by
  cases hf : cacheFind (y, get_format_by_year y, p) c with
  | some r =>
    constructor
    · simp only [detect_format_and_data_start, hf]
    · intro h
      exact absurd h (by simp)
  | none =>
    constructor
    · simp only [detect_format_and_data_start, hf, cacheFind_cons_self]
    · intro _
      simp only [detect_format_and_data_start, hf]

def gridC4 : Grid := [[Cell.int 1500]]

def gridC4other : Grid := [[Cell.int 0]]

/-- C4 witness: with a fresh cache the first call computes from `gridC4`,
and a second call on a grid with a completely different content
(`gridC4other`, which alone would locate no data) returns the cached result. -/
theorem c4_locator_memoization_witness :
    cacheFind ((2015 : Int), get_format_by_year 2015, "TESTPROV") [] = none ∧
    (detect_format_and_data_start gridC4 "TESTPROV" 2015 []).1
      = detectCore gridC4 2015 ∧
    detect_format_and_data_start gridC4other "TESTPROV" 2015
        (detect_format_and_data_start gridC4 "TESTPROV" 2015 []).2
      = ((detect_format_and_data_start gridC4 "TESTPROV" 2015 []).1,
         (detect_format_and_data_start gridC4 "TESTPROV" 2015 []).2) :=
  ⟨rfl,
   (c4_locator_memoization gridC4 gridC4other "TESTPROV" 2015 []).2 rfl,
   (c4_locator_memoization gridC4 gridC4other "TESTPROV" 2015 []).1⟩

/-- C7: with `force_reprocess = false` the consolidation writer returns the
existing path without writing whenever the target exists, and a second run on
identical input is a no-op: it returns the first run's path and leaves the
filesystem (hence the output file's bytes) unchanged. -/
theorem c7_writer_idempotent (output_dir data_type : String)
    (data : List (String × Frame)) (y m : Int) (fs : FS) :
    (fs.hasPath (consolidatedPath output_dir data_type y m) = true →
      save_consolidated_data false output_dir data_type data y m fs
        = (consolidatedPath output_dir data_type y m, fs)) ∧
    save_consolidated_data false output_dir data_type data y m
        (save_consolidated_data false output_dir data_type data y m fs).2
      = save_consolidated_data false output_dir data_type data y m fs := by
  constructor
  · intro h
    rw [save_consolidated_data]
    simp [h]
  · by_cases h : fs.hasPath (consolidatedPath output_dir data_type y m) = true
    · simp [save_consolidated_data, h]
    · rw [Bool.not_eq_true] at h
      by_cases hc : ((data.map Prod.snd).filter (fun df => !df.isEmpty)).isEmpty
      · simp [save_consolidated_data, h, hc]
      · simp [save_consolidated_data, h, hc, hasPath_write]

def frameC7 : Frame :=
  ⟨["municipality_code", "municipality_name"], [[Cell.int 0, Cell.str "X"]]⟩

/-- C7 witness: after one write, re-running returns the existing path with
the filesystem untouched. -/
theorem c7_writer_idempotent_witness :
    (FS.hasPath
        (save_consolidated_data false "out" "unemployment"
          [("P", frameC7)] 2010 3 []).2
        (consolidatedPath "out" "unemployment" 2010 3) = true) ∧
    save_consolidated_data false "out" "unemployment" [("P", frameC7)] 2010 3
        (save_consolidated_data false "out" "unemployment"
          [("P", frameC7)] 2010 3 []).2
      = (consolidatedPath "out" "unemployment" 2010 3,
         (save_consolidated_data false "out" "unemployment"
           [("P", frameC7)] 2010 3 []).2) :=
  ⟨by decide,
   (c7_writer_idempotent "out" "unemployment" [("P", frameC7)] 2010 3
      (save_consolidated_data false "out" "unemployment"
        [("P", frameC7)] 2010 3 []).2).1 (by decide)⟩

/-- The spec's synthetic older-era grid: the name column (second column) is
`["PARO REGISTRADO", "", "Madrid", "Alcalá"]`. -/
def gridC2 : Grid :=
  [[Cell.na, Cell.str "PARO REGISTRADO"],
   [Cell.na, Cell.str ""],
   [Cell.na, Cell.str "Madrid"],
   [Cell.na, Cell.str "Alcalá"]]

/-- C2 counterexample: on the spec's grid the older-generation locator
returns index 0 (the "PARO REGISTRADO" boilerplate row), not index 2
("Madrid") as the claim states — the locator's exclusion list is only the
four exact tokens TOTAL/HOMBRES/MUJERES/MUNICIPIOS, not the header-keyword
pattern. -/
theorem c2_locator_counterexample :
    (detect_format_and_data_start gridC2 "TESTPROV" 2010 []).1.dataStart
      = some 0 ∧
    (some 0 : Option Nat) ≠ some 2 := by
  exact ⟨by decide, by decide⟩

/-- C2 (amended): on the spec's grid the locator returns index 0: it keeps
non-empty strings of length > 3 containing an ASCII letter and excludes only
the exact tokens TOTAL/HOMBRES/MUJERES/MUNICIPIOS, so "PARO REGISTRADO" is a
candidate (and "Madrid" at index 2 is also a candidate, just not the first).
The boilerplate row is removed later by the extractor's header-keyword
filter: extraction keeps exactly the Madrid and Alcalá rows. -/
theorem c2_locator_amended :
    (detect_format_and_data_start gridC2 "TESTPROV" 2010 []).1
      = ⟨FormatType.OLD, some 0, false⟩ ∧
    oldRowCandidate [Cell.na, Cell.str "PARO REGISTRADO"] = true ∧
    oldRowCandidate [Cell.na, Cell.str ""] = false ∧
    oldRowCandidate [Cell.na, Cell.str "Madrid"] = true ∧
    colByName (okFrameOf (parse_unemployment_sheet gridC2 "TESTPROV" 2010 3 []))
        "municipality_name"
      = [Cell.str "Madrid", Cell.str "Alcalá"] := by
  exact ⟨by decide, by decide, by decide, by decide, by decide⟩

/-- C6 counterexample: on input `"1 2"` the unemployment extractor's
coercion (which strips only `<` and `>`) yields 0, while the claim's
described coercion (strip `<`, `>` and stray spaces, un-coercible to zero)
yields 12 — so the two extractors do not share the space-stripping
behaviour the claim asserts. -/
theorem c6_coercion_counterexample :
    coerceUnemployment "1 2" = 0 ∧ specCoerce "1 2" = 12 ∧
    coerceUnemployment "1 2" ≠ specCoerce "1 2" := by
  exact ⟨by decide, by decide, by decide⟩

def gridC6 : Grid :=
  [[Cell.int 1234, Cell.str "Alcorcón", Cell.str "<5", Cell.str " ",
    Cell.str "abc", Cell.int 1, Cell.int 1, Cell.int 1, Cell.int 1,
    Cell.int 1, Cell.int 1, Cell.int 1, Cell.int 1, Cell.int 1]]

/-- C6 (amended): the contracts extractor's coercion strips `<`, `>` and
spaces with empty/un-coercible mapped to zero (it agrees with the spec's
description on every input); the unemployment extractor's coercion strips
only `<` and `>` (surrounding whitespace is tolerated by the numeric parse,
but a string with an interior space is un-coercible and maps to 0).  In
particular `"<5" ↦ 5`, `" " ↦ 0` and `"abc" ↦ 0` hold in both coercions,
and end-to-end through the unemployment extractor. -/
theorem c6_coercion_amended :
    (∀ s, coerceContracts s = specCoerce s) ∧
    coerceUnemployment "<5" = 5 ∧ coerceUnemployment " " = 0 ∧
    coerceUnemployment "abc" = 0 ∧ coerceContracts "<5" = 5 ∧
    coerceContracts " " = 0 ∧ coerceContracts "abc" = 0 ∧
    (okFrameOf (parse_unemployment_sheet gridC6 "TESTPROV" 2015 7 [])).rows.map
        (fun r => r.take 5)
      = [[Cell.int 1234, Cell.str "Alcorcón", Cell.int 5, Cell.int 0,
          Cell.int 0]] := by
  refine ⟨?_, by decide, by decide, by decide, by decide, by decide,
    by decide, by decide⟩
  intro s
  simp only [coerceContracts, specCoerce]
  by_cases h : stripChars [' ', '<', '>'] s = ""
  · rw [if_pos h, h]
    decide
  · rw [if_neg h]

/-- Whatever the grid holds, a successful OLD-format run of either parser
produces only rows whose first cell is the placeholder code 0. -/
theorem parseSheet_old_code_zero {colsNew : List String}
    {colsOldOf : Int → List String} {finalCols : List String}
    {dataType : String} {coerceFn : String → Int}
    (df : Grid) (p : String) (y m : Int) (c : Cache)
    (hfmt : (detect_format_and_data_start df p y c).1.format = FormatType.OLD)
    (hcode : "municipality_code" ∉ colsOldOf y) :
    ∀ r ∈ (okFrameOf
        (parseSheet colsNew colsOldOf finalCols dataType coerceFn df p y m c)).rows,
      r.getD 0 Cell.na = Cell.int 0 := by
  rw [parseSheet]
  cases hds : (detect_format_and_data_start df p y c).1.dataStart with
  | none =>
    intro r hr
    simp [okFrameOf] at hr
  | some start =>
    simp only [hfmt]
    cases hpo : parseOld (colsOldOf y) finalCols dataType coerceFn p y m
        (numCols df) ((readGrid df).drop start) with
    | error e =>
      intro r hr
      simp [okFrameOf, hpo] at hr
    | ok out =>
      have hW : ∀ r ∈ (readGrid df).drop start, r.length = numCols df :=
        fun r hr => mem_readGrid_length (List.drop_subset _ _ hr)
      intro r hr
      refine parseOld_code_zero hW hcode hpo r ?_
      simpa [okFrameOf, hpo] using hr

/-- C5: every record extracted from an older-generation sheet
(`year <= 2012`, given a well-formed locator cache) carries the sentinel
`municipality_code = 0`: both extractors pad the placeholder column
themselves, independent of the sheet contents. -/
theorem c5_sentinel_codes (df : Grid) (p : String) (y m : Int) (c : Cache)
    (hwf : CacheWF c) (hy : y ≤ 2012) :
    (∀ r ∈ (okFrameOf (parse_unemployment_sheet df p y m c)).rows,
        r.getD 0 Cell.na = Cell.int 0) ∧
    (∀ r ∈ (okFrameOf (parse_contracts_sheet df p y m c)).rows,
        r.getD 0 Cell.na = Cell.int 0) := by
  have hfmt : (detect_format_and_data_start df p y c).1.format
      = FormatType.OLD := by
    rw [detect_format df p y c hwf, get_format_by_year, if_pos hy]
  constructor
  · refine parseSheet_old_code_zero df p y m c hfmt ?_
    rw [unemployment_columns_old]
    split <;> decide
  · exact parseSheet_old_code_zero df p y m c hfmt (by decide)

def gridC5 : Grid := [[Cell.na, Cell.str "Villaconejos", Cell.int 5]]

def rowC5 : List Cell :=
  [Cell.int 0, Cell.str "Villaconejos", Cell.int 5, Cell.str "TESTPROV",
   Cell.int 2010, Cell.int 1, Cell.str "unemployment"]

/-- C5 witness: a concrete 2010 sheet; the extracted row's identifier cell is
the sentinel 0. -/
theorem c5_sentinel_codes_witness :
    CacheWF ([] : Cache) ∧ (2010 : Int) ≤ 2012 ∧
    rowC5.getD 0 Cell.na = Cell.int 0 :=
  ⟨fun _ _ h => absurd h (List.not_mem_nil _), by decide,
   (c5_sentinel_codes gridC5 "TESTPROV" 2010 1 []
      (fun _ _ h => absurd h (List.not_mem_nil _)) (by decide)).1
     rowC5 (by decide)⟩

/-- A modern-generation sheet narrower than the modern schema makes either
parser return an empty frame with a single warning (this also covers the
no-data-located case, which likewise returns empty with a warning). -/
theorem parseSheet_new_mismatch {colsNew : List String}
    {colsOldOf : Int → List String} {finalCols : List String}
    {dataType : String} {coerceFn : String → Int}
    (df : Grid) (p : String) (y m : Int) (c : Cache)
    (hwf : CacheWF c) (hy : 2012 < y) (hW : numCols df < colsNew.length) :
    ∃ w c', parseSheet colsNew colsOldOf finalCols dataType coerceFn df p y m c
      = (Except.ok ⟨⟨[], []⟩, [w]⟩, c') := by
  have hfmt : (detect_format_and_data_start df p y c).1.format
      = FormatType.NEW := by
    rw [detect_format df p y c hwf, get_format_by_year, if_neg (not_le.mpr hy)]
  rw [parseSheet]
  cases hds : (detect_format_and_data_start df p y c).1.dataStart with
  | none => exact ⟨_, _, rfl⟩
  | some start =>
    simp only [hfmt]
    refine ⟨LogEvent.newColumnCountWarning dataType p,
      (detect_format_and_data_start df p y c).2, ?_⟩
    simp only [parseNew]
    rw [if_neg (Nat.not_le.mpr hW)]

/-- A sheet whose parse yields an empty frame is logged (`EMPTY_DATA`),
counted as a data-quality issue, and contributes nothing to the results —
the loop then simply moves on. -/
theorem stepSheet_empty_parse (fn : String) (y m : Int) (st : BatchSt)
    (s : Sheet) (df : Grid) (ws : List LogEvent) (c' : Cache)
    (hsp : specialSheets.contains s.name = false)
    (hdt : (clean_sheet_name s.name).1 = "unemployment")
    (hrd : readSheet s = Except.ok (df, false))
    (hp : parse_unemployment_sheet df (clean_sheet_name s.name).2.2 y m st.cache
        = (Except.ok ⟨⟨[], []⟩, ws⟩, c')) :
    stepSheet fn y m st s
      = { st with
          cache := c',
          stats := { st.stats with
            data_quality_issues := st.stats.data_quality_issues + 1 },
          log := st.log ++ [LogEvent.emptyData fn s.name] } := by
  have h1 : ((clean_sheet_name s.name).1 == "unknown") = false := by
    rw [hdt]; decide
  rw [stepSheet, hsp]
  rw [if_neg (by decide : ¬(false = true))]
  show (if ((clean_sheet_name s.name).1 == "unknown") = true then st
      else stepRead fn y m s.name (clean_sheet_name s.name).1
        (clean_sheet_name s.name).2.2 st (readSheet s)) = _
  rw [h1, if_neg (by decide : ¬(false = true)), hrd, hdt, stepRead]
  rw [parseByType, if_pos (by decide : (("unemployment" == "unemployment") = true)),
    hp]
  rw [stepParsed]
  rfl

def gridC1 : Grid :=
  [[Cell.na, Cell.str "PARO REGISTRADO", Cell.na, Cell.na, Cell.na],
   [Cell.na, Cell.str "Madrid", Cell.str "12", Cell.int 3, Cell.int 4]]

/-- C1 counterexample: an older-generation (2010) sheet with 5 columns
mismatches its era's expected 14-column schema, yet `parse_unemployment_sheet`
returns a NONEMPTY table (keeping the available columns, with a warning),
not the empty table the claim asserts for every generation's mismatch. -/
theorem c1_column_mismatch_counterexample :
    numCols gridC1 < 14 ∧
    (okFrameOf (parse_unemployment_sheet gridC1 "TESTPROV" 2010 3 [])).rows
      ≠ [] ∧
    okWarningsOf (parse_unemployment_sheet gridC1 "TESTPROV" 2010 3 [])
      = [LogEvent.oldColumnCountWarning "unemployment" "TESTPROV"] := by
  exact ⟨by decide, by decide, by decide⟩

/-- C1 (amended): only for MODERN-generation sheets does a column shortfall
against the modern schema (14 unemployment / 13 contracts columns) make the
extractor return an empty table with a warning; an older-generation
shortfall logs a warning but keeps the available columns (see the
counterexample).  A sheet whose extraction comes back empty is logged and
skipped without touching the accumulated results, and the batch loop
continues with the remaining sheets. -/
theorem c1_column_mismatch_amended :
    (∀ (df : Grid) (p : String) (y m : Int) (c : Cache), CacheWF c →
      2012 < y → numCols df < 14 →
      ∃ w c', parse_unemployment_sheet df p y m c
        = (Except.ok ⟨⟨[], []⟩, [w]⟩, c')) ∧
    (∀ (df : Grid) (p : String) (y m : Int) (c : Cache), CacheWF c →
      2012 < y → numCols df < 13 →
      ∃ w c', parse_contracts_sheet df p y m c
        = (Except.ok ⟨⟨[], []⟩, [w]⟩, c')) ∧
    (∀ (fn : String) (y m : Int) (st : BatchSt) (s : Sheet)
        (rest : List Sheet),
      processSheetBatch fn y m st (s :: rest)
        = processSheetBatch fn y m (stepSheet fn y m st s) rest) ∧
    (∀ (fn : String) (y m : Int) (st : BatchSt) (s : Sheet) (df : Grid)
        (ws : List LogEvent) (c' : Cache),
      specialSheets.contains s.name = false →
      (clean_sheet_name s.name).1 = "unemployment" →
      readSheet s = Except.ok (df, false) →
      parse_unemployment_sheet df (clean_sheet_name s.name).2.2 y m st.cache
        = (Except.ok ⟨⟨[], []⟩, ws⟩, c') →
      (stepSheet fn y m st s).unemployment = st.unemployment ∧
      (stepSheet fn y m st s).contracts = st.contracts ∧
      (stepSheet fn y m st s).log
        = st.log ++ [LogEvent.emptyData fn s.name]) := by
  refine ⟨?_, ?_, ?_, ?_⟩
  · intro df p y m c hwf hy hW
    exact parseSheet_new_mismatch df p y m c hwf hy hW
  · intro df p y m c hwf hy hW
    exact parseSheet_new_mismatch df p y m c hwf hy hW
  · intro fn y m st s rest
    rfl
  · intro fn y m st s df ws c' hsp hdt hrd hp
    rw [stepSheet_empty_parse fn y m st s df ws c' hsp hdt hrd hp]
    exact ⟨rfl, rfl, rfl⟩

def gridC1new : Grid := [[Cell.int 1234, Cell.str "X"]]

/-- C1 witness: a 2-column modern-generation sheet; the unemployment
extractor returns the empty table plus one warning. -/
theorem c1_column_mismatch_witness :
    CacheWF ([] : Cache) ∧ numCols gridC1new < 14 ∧
    ∃ w c', parse_unemployment_sheet gridC1new "TESTPROV" 2015 7 []
      = (Except.ok ⟨⟨[], []⟩, [w]⟩, c') :=
  ⟨fun _ _ h => absurd h (List.not_mem_nil _), by decide,
   c1_column_mismatch_amended.1 gridC1new "TESTPROV" 2015 7 []
     (fun _ _ h => absurd h (List.not_mem_nil _)) (by decide) (by decide)⟩

def gridC8 : Grid :=
  [[Cell.int 0], [Cell.int 0], [Cell.int 1234], [Cell.int 1235], [Cell.na]]

def gridC8none : Grid := [[Cell.int 0], [Cell.int 999]]

/-- C8: the modern-generation locator coerces the first column to numeric
and returns the index of the first value exceeding 1000: on the spec's
identifier column `[0, 0, 1234, 1235, NaN]` that is index 2; when no such
value exists among the first 50 rows the start row is `none`, and the parser
then returns an empty table (with a no-data warning) so the caller skips the
sheet. -/
theorem c8_new_locator :
    (detect_format_and_data_start gridC8 "TESTPROV" 2015 []).1
      = ⟨FormatType.NEW, some 2, true⟩ ∧
    (∀ (df : Grid) (p : String) (y : Int) (c : Cache),
      cacheFind (y, get_format_by_year y, p) c = none → 2012 < y →
      (∀ r ∈ df.take 50, newRowCandidate r = false) →
      (detect_format_and_data_start df p y c).1.dataStart = none) ∧
    (∀ (df : Grid) (p : String) (y m : Int) (c : Cache),
      (detect_format_and_data_start df p y c).1.dataStart = none →
      parse_unemployment_sheet df p y m c
        = (Except.ok ⟨⟨[], []⟩, [LogEvent.noDataWarning "unemployment" p]⟩,
           (detect_format_and_data_start df p y c).2)) := by
  refine ⟨by decide, ?_, ?_⟩
  · intro df p y c hf hy hall
    have hgf : get_format_by_year y = FormatType.NEW := by
      rw [get_format_by_year, if_neg (not_le.mpr hy)]
    rw [detect_format_and_data_start]
    simp only [hf]
    rw [detectCore, hgf]
    rw [if_neg (by decide : ¬(FormatType.NEW = FormatType.OLD))]
    split
    · exact findFirstIdx_eq_none hall
    · rfl
  · intro df p y m c hds
    rw [parse_unemployment_sheet, parseSheet]
    simp only [hds]

/-- C8 witness: the general no-data clause applied to a concrete column with
no value above 1000: the locator yields no start row and the parser returns
the empty table with the no-data warning. -/
theorem c8_new_locator_witness :
    cacheFind ((2015 : Int), get_format_by_year 2015, "TESTPROV") [] = none ∧
    (2012 : Int) < 2015 ∧
    (detect_format_and_data_start gridC8none "TESTPROV" 2015 []).1.dataStart
      = none ∧
    parse_unemployment_sheet gridC8none "TESTPROV" 2015 7 []
      = (Except.ok ⟨⟨[], []⟩,
          [LogEvent.noDataWarning "unemployment" "TESTPROV"]⟩,
         (detect_format_and_data_start gridC8none "TESTPROV" 2015 []).2) := by
  have h2 := c8_new_locator.2.1 gridC8none "TESTPROV" 2015 [] rfl
    (by decide) (by decide)
  exact ⟨rfl, by decide, h2,
    c8_new_locator.2.2 gridC8none "TESTPROV" 2015 7 [] h2⟩

/-- C9: the validator is a pure observer (its type returns only a list of
issues — it can neither mutate nor reject the frame), and it flags
zero-valued identifiers if and only if the file's year is after 2012: for
older-generation files the placeholder zeros raise no issue. -/
theorem mem_ite_lists {α : Type} {x : α} {c : Prop} [Decidable c]
    {l1 l2 : List α} (h : x ∈ if c then l1 else l2) :
    (c ∧ x ∈ l1) ∨ (¬c ∧ x ∈ l2) := by
  split at h
  · next hc => exact Or.inl ⟨hc, h⟩
  · next hc => exact Or.inr ⟨hc, h⟩

theorem c9_validator_placeholder_iff (f : Frame) (dt fn : String) (y : Int)
    (hy : fileYearOf fn = some y) :
    (∃ n, Issue.placeholderCodes n ∈ validate_parsed_data f dt fn) ↔
      (2012 < y ∧ f.names.contains "municipality_code" = true ∧
       0 < countZero (colByName f "municipality_code")) := by
  rw [validate_parsed_data, hy]
  dsimp only
  constructor
  · rintro ⟨n, hn⟩
    rcases List.mem_append.mp hn with h | h
    · rcases List.mem_append.mp h with h | h
      · rcases List.mem_append.mp h with h | h
        · -- code issues: the only possible source of a placeholder issue
          rcases mem_ite_lists h with ⟨hc, h⟩ | ⟨_, h⟩
          · rcases List.mem_append.mp h with ha | hb
            · rcases mem_ite_lists ha with ⟨_, ha⟩ | ⟨_, ha⟩
              · exact Issue.noConfusion (List.mem_singleton.mp ha)
              · exact absurd ha (List.not_mem_nil _)
            · rcases mem_ite_lists hb with ⟨hold, hb⟩ | ⟨_, hb⟩
              · rcases mem_ite_lists hb with ⟨hph, hb⟩ | ⟨_, hb⟩
                · refine ⟨?_, hc, hph⟩
                  have hdf : decide (y ≤ 2012) = false := by
                    rcases Bool.eq_false_or_eq_true (decide (y ≤ 2012)) with
                      h' | h'
                    · rw [h'] at hold
                      exact absurd hold (by decide)
                    · exact h'
                  exact lt_of_not_le (of_decide_eq_false hdf)
                · exact absurd hb (List.not_mem_nil _)
              · exact absurd hb (List.not_mem_nil _)
          · exact absurd h (List.not_mem_nil _)
        · -- missing-names issues
          rcases mem_ite_lists h with ⟨_, h⟩ | ⟨_, h⟩
          · rcases mem_ite_lists h with ⟨_, h⟩ | ⟨_, h⟩
            · exact Issue.noConfusion (List.mem_singleton.mp h)
            · exact absurd h (List.not_mem_nil _)
          · exact absurd h (List.not_mem_nil _)
      · -- negative-value issues
        obtain ⟨a, _, heq⟩ := List.mem_filterMap.mp h
        split at heq
        · exact Issue.noConfusion (Option.some.inj heq)
        · exact Option.noConfusion heq
    · -- high-value issues
      rcases mem_ite_lists h with ⟨_, h⟩ | ⟨_, h⟩
      · rcases mem_ite_lists h with ⟨_, h⟩ | ⟨_, h⟩
        · rcases mem_ite_lists h with ⟨_, h⟩ | ⟨_, h⟩
          · exact Issue.noConfusion (List.mem_singleton.mp h)
          · exact absurd h (List.not_mem_nil _)
        · exact absurd h (List.not_mem_nil _)
      · rcases mem_ite_lists h with ⟨_, h⟩ | ⟨_, h⟩
        · rcases mem_ite_lists h with ⟨_, h⟩ | ⟨_, h⟩
          · rcases mem_ite_lists h with ⟨_, h⟩ | ⟨_, h⟩
            · exact Issue.noConfusion (List.mem_singleton.mp h)
            · exact absurd h (List.not_mem_nil _)
          · exact absurd h (List.not_mem_nil _)
        · exact absurd h (List.not_mem_nil _)
  · rintro ⟨hy2, hc, hz⟩
    refine ⟨countZero (colByName f "municipality_code"), ?_⟩
    apply List.mem_append.mpr
    left
    apply List.mem_append.mpr
    left
    apply List.mem_append.mpr
    left
    rw [if_pos hc]
    apply List.mem_append.mpr
    right
    rw [if_pos (show ((!decide (y ≤ 2012)) = true) by
      rw [decide_eq_false (not_le.mpr hy2)]; decide), if_pos hz]
    exact List.mem_singleton.mpr rfl

def frameC9 : Frame :=
  ⟨["municipality_code", "municipality_name"],
   [[Cell.int 0, Cell.str "X"], [Cell.int 28079, Cell.str "Madrid"]]⟩

/-- C9 witness: a modern-era file name (year 2015) with one zero identifier
row makes the validator emit a placeholder-codes issue. -/
theorem c9_validator_placeholder_iff_witness :
    fileYearOf "2015_05_employment.xls" = some 2015 ∧
    ∃ n, Issue.placeholderCodes n ∈
      validate_parsed_data frameC9 "unemployment" "2015_05_employment.xls" :=
  ⟨by decide,
   (c9_validator_placeholder_iff frameC9 "unemployment"
      "2015_05_employment.xls" 2015 (by decide)).mpr
     ⟨by decide, by decide, by decide⟩⟩

/-! Support lemmas for C10: nothing in the per-sheet loop can touch the
`files_failed` counter. -/

theorem stepParsed_files_failed (fn sn dt pr : String) (st : BatchSt)
    (x : Except String ParseOut × Cache) :
    (stepParsed fn sn dt pr st x).stats.files_failed
      = st.stats.files_failed := by
  obtain ⟨res, c'⟩ := x
  cases res with
  | error e => rfl
  | ok out =>
    rw [stepParsed]
    dsimp only
    split
    · rfl
    · split <;> split <;> rfl

theorem stepRead_files_failed (fn : String) (y m : Int) (sn dt pr : String)
    (st : BatchSt) (x : Except String (Grid × Bool)) :
    (stepRead fn y m sn dt pr st x).stats.files_failed
      = st.stats.files_failed := by
  cases x with
  | error e => rfl
  | ok gb =>
    obtain ⟨df, fb⟩ := gb
    cases fb
    · rw [stepRead]
      exact stepParsed_files_failed _ _ _ _ _ _
    · rw [stepRead]
      exact stepParsed_files_failed _ _ _ _ _ _

theorem stepSheet_files_failed (fn : String) (y m : Int) (st : BatchSt)
    (s : Sheet) :
    (stepSheet fn y m st s).stats.files_failed = st.stats.files_failed := by
  rw [stepSheet]
  split
  · rfl
  · dsimp only
    split
    · rfl
    · exact stepRead_files_failed _ _ _ _ _ _ _ _

theorem batch_files_failed (fn : String) (y m : Int) (sheets : List Sheet) :
    ∀ st : BatchSt,
      (processSheetBatch fn y m st sheets).stats.files_failed
        = st.stats.files_failed := by
  induction sheets with
  | nil => intro st; rfl
  | cons s rest ih =>
    intro st
    rw [processSheetBatch, List.foldl_cons]
    exact (ih (stepSheet fn y m st s)).trans (stepSheet_files_failed fn y m st s)

theorem trackFormat_files_failed (g : GlobalSt) (y : Int) :
    (trackFormat g y).stats.files_failed = g.stats.files_failed := by
  rw [trackFormat]
  split <;> rfl

/-- C10: per-sheet failures never escape the file processor.  For any file
whose filename parses, which is within the size ceiling, whose workbook
opens and which has at least one relevant sheet, `process_file` equals the
total fold of the per-sheet step over all relevant sheets — whatever each
sheet's read/parse outcome — and leaves `files_failed` untouched while
counting the file processed.  A sheet whose both reads fail, or whose parse
raises, is counted in `sheets_failed`, logged, and leaves the accumulated
results unchanged. -/
theorem c10_sheet_isolation :
    (∀ (file : WorkFile) (g : GlobalSt) (y m : Int),
      extract_date_from_filename file.name = Except.ok (y, m) →
      file.sizeMB ≤ 100 →
      file.readable = true →
      file.sheets.filter relevantSheet ≠ [] →
      (process_file file g
        = (let b := processSheetBatch file.name y m
            ⟨[], [], (trackFormat g y).stats, (trackFormat g y).cache,
              (trackFormat g y).log⟩ (file.sheets.filter relevantSheet)
           (⟨b.unemployment, b.contracts⟩,
            ⟨{ b.stats with
                files_processed := b.stats.files_processed + 1 },
             b.cache, b.log⟩)) ∧
       (process_file file g).2.stats.files_failed = g.stats.files_failed)) ∧
    (∀ (fn : String) (y m : Int) (sn dt pr : String) (st : BatchSt)
        (e : String),
      (stepRead fn y m sn dt pr st (Except.error e)).unemployment
        = st.unemployment ∧
      (stepRead fn y m sn dt pr st (Except.error e)).contracts
        = st.contracts ∧
      (stepRead fn y m sn dt pr st (Except.error e)).stats.sheets_failed
        = st.stats.sheets_failed + 1 ∧
      (stepRead fn y m sn dt pr st (Except.error e)).log
        = st.log ++ [LogEvent.engineFallback fn sn,
                     LogEvent.sheetReadFailed fn sn]) ∧
    (∀ (fn sn dt pr : String) (st : BatchSt) (e : String) (c' : Cache),
      (stepParsed fn sn dt pr st (Except.error e, c')).unemployment
        = st.unemployment ∧
      (stepParsed fn sn dt pr st (Except.error e, c')).contracts
        = st.contracts ∧
      (stepParsed fn sn dt pr st (Except.error e, c')).stats.sheets_failed
        = st.stats.sheets_failed + 1 ∧
      (stepParsed fn sn dt pr st (Except.error e, c')).log
        = st.log ++ [LogEvent.dataParseError fn sn]) := by
  refine ⟨?_, ?_, ?_⟩
  · intro file g y m hname hsize hread hrel
    have hne : (file.sheets.filter relevantSheet).isEmpty = false := by
      cases h : file.sheets.filter relevantSheet with
      | nil => exact absurd h hrel
      | cons a l => rfl
    have heq : process_file file g
        = (let b := processSheetBatch file.name y m
            ⟨[], [], (trackFormat g y).stats, (trackFormat g y).cache,
              (trackFormat g y).log⟩ (file.sheets.filter relevantSheet)
           (⟨b.unemployment, b.contracts⟩,
            ⟨{ b.stats with
                files_processed := b.stats.files_processed + 1 },
             b.cache, b.log⟩)) := by
      rw [process_file]
      simp only [hname]
      rw [if_neg (not_lt.mpr hsize), hread]
      rw [if_neg (by decide : ¬((!true) = true))]
      rw [hne]
      rw [if_neg (by decide : ¬(false = true))]
    refine ⟨heq, ?_⟩
    rw [heq]
    show ({ (processSheetBatch file.name y m _ _).stats with
        files_processed := _ } : Stats).files_failed = g.stats.files_failed
    exact (batch_files_failed _ _ _ _ _).trans (trackFormat_files_failed g y)
  · intro fn y m sn dt pr st e
    exact ⟨rfl, rfl, rfl, rfl⟩
  · intro fn sn dt pr st e c'
    exact ⟨rfl, rfl, rfl, rfl⟩

def fileC10 : WorkFile :=
  { name := "2015_07_employment.xls", sizeMB := 1, readable := true,
    sheets := [{ name := "PARO MADRID",
                 readFast := Except.error "corrupt stream",
                 readFallback := Except.error "still corrupt" }] }

def g0 : GlobalSt := ⟨⟨0, 0, 0, 0, 0, 0, 0, 0⟩, [], []⟩

/-- C10 witness: a readable file with one unreadable sheet is processed
without any file-level failure being recorded. -/
theorem c10_sheet_isolation_witness :
    extract_date_from_filename fileC10.name = Except.ok (2015, 7) ∧
    (process_file fileC10 g0).2.stats.files_failed = g0.stats.files_failed :=
  ⟨rfl,
   (c10_sheet_isolation.1 fileC10 g0 2015 7 rfl (by decide) rfl
      (fun h => List.noConfusion h)).2⟩

end Sepe
